import Mathlib

/-!
Shallow embedding of the pr-notify-bot incremental pull-request
synchronization engine.

The embedding covers:
* `Service.init` (service.ts) with its lazy-initialization flag;
* `GithubService.getPullRequests` (github.service.ts): the pagination
  walk, per-PR state and timestamp extraction, the per-call author
  cache, the ignore-list filter, the watermark filter and the final
  watermark write;
* `GithubService.githubUserToPullRequestAuthorInfo`: parsing of linked
  social-account URLs;
* `resolveSocialHandle` and the publish loop of `update()` (index.ts),
  including the mutex guard around a sync cycle.

Timestamps are modelled as natural numbers (milliseconds since the JS
epoch); JS `Date` comparison on valid dates is numeric comparison of
those values, and `new Date(null)` is the epoch, i.e. `0`.  Thrown JS
exceptions are modelled with `Except JsError`.  External collaborators
(the hosting API, the publishing network) are parameters: opaque
functions returning either data or a thrown error.
-/

/-- Runtime errors thrown on the embedded code paths: `typeError` for
implicit JS TypeErrors (property access on `undefined`), `jsError` for
explicit `throw new Error(...)`, `fetchError` for failures of external
API calls, and `nonTermination` marking a pagination walk that never
finishes (the fuel of the embedding ran out, standing for a sync call
that never returns). -/
inductive JsError where
  | typeError (msg : String)
  | jsError (msg : String)
  | fetchError (msg : String)
  | nonTermination
deriving DecidableEq

/-- Decidable equality of `Except` results, so that concrete runs of
the embedded code can be checked by evaluation. -/
instance {ε α : Type} [DecidableEq ε] [DecidableEq α] : DecidableEq (Except ε α) := fun
  | .error e1, .error e2 =>
    match decEq e1 e2 with
    | isTrue h => isTrue (by rw [h])
    | isFalse h => isFalse (by intro c; injection c; contradiction)
  | .error _, .ok _ => isFalse (fun c => Except.noConfusion c)
  | .ok _, .error _ => isFalse (fun c => Except.noConfusion c)
  | .ok a1, .ok a2 =>
    match decEq a1 a2 with
    | isTrue h => isTrue (by rw [h])
    | isFalse h => isFalse (by intro c; injection c; contradiction)

/-- Auxiliary recursion for `jsSplit`, structural in a fuel argument so
that concrete instances reduce in the kernel.  `cur` is the reversed
chunk currently being accumulated. -/
def jsSplitAux (sep : List Char) : Nat → List Char → List Char → List (List Char)
  | _, [], cur => [cur.reverse]
  | 0, s, cur => [cur.reverse ++ s]
  | fuel + 1, c :: rest, cur =>
    if sep.isPrefixOf (c :: rest) then
      cur.reverse :: jsSplitAux sep fuel (List.drop sep.length (c :: rest)) []
    else
      jsSplitAux sep fuel rest (c :: cur)

/-- JS `String.prototype.split` with a non-empty string separator: the
list of chunks between occurrences of the separator, leftmost-first,
with empty chunks kept (`"/@".split("@") = ["/", ""]`). -/
def jsSplit (s sep : String) : List String :=
  (jsSplitAux sep.data s.data.length s.data []).map (fun l => String.mk l)

/-- JS `Array.prototype.pop()` as used on the (always non-empty) result
of `split`: the last element. -/
def jsLast (l : List String) : String :=
  l.getLastD ""

/-- Concatenate with a separator (used to rebuild a URL pathname from
its slash-separated segments). -/
def joinWith (sep : String) : List String → String
  | [] => ""
  | [x] => x
  | x :: y :: rest => x ++ sep ++ joinWith sep (y :: rest)

/-- The components of a parsed URL that the source reads. -/
structure UrlParts where
  hostname : String
  pathname : String
deriving DecidableEq

/-- Model of the WHATWG `new URL(s)` constructor restricted to the
shape of the URLs the source feeds it: absolute `https` URLs without
userinfo, port, query or fragment.  The hostname is the segment up to
the first slash after the scheme, the pathname is the rest including
its leading slash (`"/"` when absent).  A string without the `https`
scheme prefix fails to parse, modelling the TypeError thrown by
`new URL`. -/
def parseUrl (s : String) : Except JsError UrlParts :=
  if ("https://".data).isPrefixOf s.data then
    match jsSplit (String.mk (s.data.drop 8)) "/" with
    | [] => .error (.typeError "Invalid URL")
    | host :: pathParts =>
      if host.data.isEmpty then .error (.typeError "Invalid URL")
      else .ok { hostname := host, pathname := "/" ++ joinWith "/" pathParts }
  else .error (.typeError "Invalid URL")

/-- `PullRequestState` (github.service.ts). -/
inductive PullRequestState where
  | open
  | merged
  | closed
  | draft
deriving DecidableEq

/-- `PullRequestAuthorInfo` (github.service.ts): optional fields model
the optional TS fields, absent meaning `undefined`. -/
structure PullRequestAuthorInfo where
  username : String
  url : String
  bsky : Option String := none
  bskyUrl : Option String := none
  mastodon : Option String := none
  mastodonUrl : Option String := none
  twitter : Option String := none
  reddit : Option String := none
deriving DecidableEq

/-- `PullRequestInfo` (github.service.ts).  `updatedAt` holds, as in
the source, the lifecycle timestamp chosen per state (creation time for
open and draft, close time for closed, merge time for merged).  The
`author` field is optional because the source assigns `author!` from a
variable that stays `undefined` when the raw PR has no `user`. -/
structure PullRequestInfo where
  number : Nat
  title : String
  url : String
  updatedAt : Nat
  state : PullRequestState
  author : Option PullRequestAuthorInfo
deriving DecidableEq

/-- One element of the octokit `pulls.list` response, reduced to the
fields the source reads.  `state` is a raw string (the source switches
on it with a default branch), `closed_at` and `merged_at` are nullable
in the API type, `user` is the optional author login. -/
structure RawPull where
  number : Nat
  title : String
  html_url : String
  updated_at : Nat
  state : String
  created_at : Nat
  closed_at : Option Nat := none
  merged_at : Option Nat := none
  user : Option String := none
deriving DecidableEq

/-- The octokit `users.getByUsername` response, reduced to the fields
the source reads. -/
structure GithubUser where
  login : String
  html_url : String
deriving DecidableEq

/-- One element of the octokit `listSocialAccountsForUser` response. -/
structure SocialAccount where
  provider : String
  url : String
deriving DecidableEq

/-- The hosting-platform API as the source consumes it: an opaque,
possibly failing function per endpoint.  `listPulls` takes the `since`
value the source passes (milliseconds) and the requested page number;
its behaviour, including any server-side `since` filtering, is the
opaque paginated feed. -/
structure GithubApi where
  listPulls : Nat → Nat → Except JsError (List RawPull)
  getUser : String → Except JsError GithubUser
  listSocial : String → Except JsError (List SocialAccount)

/-- JS truthiness of an optional string field: `undefined` and the
empty string are falsy. -/
def truthy : Option String → Bool
  | none => false
  | some s => !s.data.isEmpty

/-- `resolveSocialHandle` (github.service.ts lines 63-75).  The `getD`
defaults stand for the non-null assertions of the source (the value is
present whenever the guard is truthy). -/
def resolveSocialHandle (user : PullRequestAuthorInfo) : String :=
  if truthy user.bsky then "@" ++ user.bsky.getD ""
  else if truthy user.mastodon then user.mastodonUrl.getD ""
  else if truthy user.twitter then "https://x.com/" ++ user.twitter.getD ""
  else if truthy user.reddit then "https://reddit.com/u/" ++ user.reddit.getD ""
  else "https://github.com/" ++ user.username

/-- The body of the `forEach` over linked social accounts inside
`_githubUserToPullRequestAuthorInfo` (github.service.ts lines 240-289).
All throws inside the branches are caught by the surrounding
try/catch blocks, which only log, so the step is total: a caught throw
keeps every assignment made before it. -/
def applySocial (author : PullRequestAuthorInfo) (social : SocialAccount) : PullRequestAuthorInfo :=
  if social.provider = "bluesky" then
    -- author.bskyUrl is assigned before the try block
    let author := { author with bskyUrl := some social.url }
    match parseUrl social.url with
    | .error _ => author
    | .ok url =>
      if url.hostname ≠ "bsky.app" then author
      else
        let username := jsLast (jsSplit url.pathname "/profile/")
        if username.data.isEmpty then author
        else { author with bsky := some username }
  else if social.provider = "twitter" then
    { author with twitter := some (jsLast (jsSplit social.url "/")) }
  else if social.provider = "reddit" then
    { author with reddit := some (jsLast (jsSplit social.url "/u/")) }
  else if social.provider = "mastodon" then
    -- author.mastodonUrl is assigned before the try block
    let author := { author with mastodonUrl := some social.url }
    match parseUrl social.url with
    | .error _ => author
    | .ok url =>
      let domain := url.hostname
      let username := jsLast (jsSplit url.pathname "@")
      -- the source assigns author.mastodon before checking the handle;
      -- the empty-handle throw below the assignment is caught by the
      -- catch block, which only logs, so the assignment persists
      let author := { author with mastodon := some (username ++ "@" ++ domain) }
      author
  else author

/-- `GithubService._githubUserToPullRequestAuthorInfo`
(github.service.ts lines 230-292): build the base record from the
profile, fetch the linked social accounts (a failing fetch propagates),
then fold the account branches over the record. -/
def githubUserToPullRequestAuthorInfo (api : GithubApi) (user : GithubUser) :
    Except JsError PullRequestAuthorInfo :=
  match api.listSocial user.login with
  | .error e => .error e
  | .ok socials =>
    .ok (socials.foldl applySocial { username := user.login, url := user.html_url })

/-- JS `new Date(x)` on the nullable timestamp fields of the API
response (`closed_at!`, `merged_at!` in the source): a present value
parses to its timestamp, `null` coerces to the epoch
(`new Date(null)` is `1970-01-01T00:00:00Z`, i.e. `0`).  No error is
raised for an absent value. -/
def jsDateOfNullable (o : Option Nat) : Nat :=
  o.getD 0

/-- The per-raw-PR state and lifecycle-timestamp selection
(github.service.ts lines 163-186): the switch on `raw.state` with its
default branch throwing on an unknown state string. -/
def stateAndDate (raw : RawPull) : Except JsError (PullRequestState × Nat) :=
  if raw.state = "open" then .ok (.open, raw.created_at)
  else if raw.state = "closed" then .ok (.closed, jsDateOfNullable raw.closed_at)
  else if raw.state = "merged" then .ok (.merged, jsDateOfNullable raw.merged_at)
  else if raw.state = "draft" then .ok (.draft, raw.created_at)
  else .error (.jsError ("Unknown PR state: " ++ raw.state))

/-- Lookup in the per-call author cache (the `users` record of
github.service.ts line 119; each key is written at most once). -/
def cacheFind (users : List (String × PullRequestAuthorInfo)) (k : String) :
    Option PullRequestAuthorInfo :=
  match users with
  | [] => none
  | (k2, v) :: rest => if k = k2 then some v else cacheFind rest k

/-- The body of the `rawPulls.map` callback (github.service.ts lines
162-211): pick state and timestamp, resolve the author through the
per-call cache (first seen wins), and build the `PullRequestInfo`.  The
source runs the callbacks under `Promise.all`; with the deterministic
API model the sequential cache threading yields the same values. -/
def processRaw (api : GithubApi) (users : List (String × PullRequestAuthorInfo))
    (raw : RawPull) :
    Except JsError (PullRequestInfo × List (String × PullRequestAuthorInfo)) :=
  match stateAndDate raw with
  | .error e => .error e
  | .ok sd =>
    match raw.user with
    | none =>
      .ok ({ number := raw.number, title := raw.title, url := raw.html_url,
             updatedAt := sd.2, state := sd.1, author := none }, users)
    | some login =>
      match cacheFind users login with
      | some info =>
        .ok ({ number := raw.number, title := raw.title, url := raw.html_url,
               updatedAt := sd.2, state := sd.1, author := some info }, users)
      | none =>
        match api.getUser login with
        | .error e => .error e
        | .ok u =>
          match githubUserToPullRequestAuthorInfo api u with
          | .error e => .error e
          | .ok info =>
            .ok ({ number := raw.number, title := raw.title, url := raw.html_url,
                   updatedAt := sd.2, state := sd.1, author := some info },
                 (login, info) :: users)

/-- Process the accumulated raw pulls in order, threading the author
cache (github.service.ts lines 162-211). -/
def processAll (api : GithubApi) (users : List (String × PullRequestAuthorInfo)) :
    List RawPull → Except JsError (List PullRequestInfo)
  | [] => .ok []
  | raw :: rest =>
    match processRaw api users raw with
    | .error e => .error e
    | .ok (pri, users2) =>
      match processAll api users2 rest with
      | .error e => .error e
      | .ok tail => .ok (pri :: tail)

/-- The ignore-list filter (github.service.ts lines 213-216).  The
filter callback reads `pr.author.username`; a PR whose `author` is
`undefined` makes the whole filter throw a TypeError, checked in
element order as `Array.prototype.filter` does. -/
def filterIgnored (ignore : List String) :
    List PullRequestInfo → Except JsError (List PullRequestInfo)
  | [] => .ok []
  | pr :: rest =>
    match pr.author with
    | none => .error (.typeError "Cannot read properties of undefined (reading username)")
    | some a =>
      match filterIgnored ignore rest with
      | .error e => .error e
      | .ok tail =>
        .ok (if decide (a.username ∈ ignore) then tail else pr :: tail)

/-- The pagination loop of `getPullRequests` (github.service.ts lines
121-159).  `since` is the value the source passes to the API; the stop
condition compares against `lastUpdateOn` (the watermark), exactly as
the source does.  The accumulator starts as `none` (`rawPulls`
undeclared) and becomes `some` only once a non-empty page is appended.
The fuel argument makes the `while` loop a total function; running out
of fuel yields `nonTermination`, standing for a walk that never
finishes. -/
def walkPages (api : GithubApi) (since lastUpdateOn : Nat) :
    Nat → Nat → Option (List RawPull) → Except JsError (Option (List RawPull))
  | 0, _, _ => .error .nonTermination
  | fuel + 1, page, acc =>
    match api.listPulls since page with
    | .error e => .error e
    | .ok [] => .ok acc
    | .ok (d :: ds) =>
      let acc2 : Option (List RawPull) := some (acc.getD [] ++ (d :: ds))
      if ((d :: ds).getLastD d).updated_at < lastUpdateOn then .ok acc2
      else walkPages api since lastUpdateOn fuel (page + 1) acc2

/-- The state the source keeps on a `GithubService` instance that
`getPullRequests` reads or writes: `_lastUpdateOn` (the watermark,
initialised to the construction time) and `_ignoreUsers`. -/
structure GithubService where
  lastUpdateOn : Nat
  ignoreUsers : List String
deriving DecidableEq

/-- `GithubService.getPullRequests` (github.service.ts lines 114-228).
`fuel` bounds the pagination loop; `now` is the wall-clock reading of
the `new Date()` on line 225.  On success the returned service state
carries the watermark write of line 225 -- the only assignment to
instance state in the method, placed after every await, so a thrown
error (modelled as `.error`) leaves the instance unchanged.  Note that
after an exhausted walk that appended nothing, `rawPulls` is still
`undefined` and line 162 calls `.map` on it: a TypeError. -/
def GithubService.getPullRequests (svc : GithubService) (api : GithubApi)
    (fuel : Nat) (startFrom : Option Nat) (now : Nat) :
    Except JsError (List PullRequestInfo × GithubService) :=
  let since := startFrom.getD svc.lastUpdateOn
  match walkPages api since svc.lastUpdateOn fuel 0 none with
  | .error e => .error e
  | .ok none => .error (.typeError "Cannot read properties of undefined (reading map)")
  | .ok (some raws) =>
    match processAll api [] raws with
    | .error e => .error e
    | .ok pulls =>
      match filterIgnored svc.ignoreUsers pulls with
      | .error e => .error e
      | .ok pulls2 =>
        let pulls3 := pulls2.filter (fun pr => decide (svc.lastUpdateOn ≤ pr.updatedAt))
        .ok (pulls3, { svc with lastUpdateOn := now })

/-- The fetch step of `update()` (index.ts lines 94-103) as the engine
observes it: on success the instance carries the new watermark, on a
thrown error the instance is unchanged and no batch is produced. -/
def fetchStep (api : GithubApi) (fuel : Nat) (svc : GithubService)
    (startFrom : Option Nat) (now : Nat) :
    GithubService × Except JsError (List PullRequestInfo) :=
  match svc.getPullRequests api fuel startFrom now with
  | .ok (prs, svc2) => (svc2, .ok prs)
  | .error e => (svc, .error e)

/-- A production post as the publish loop of `update()` emits it:
the built rich text and the number of the PR whose URL was scraped for
the link-preview embed (`getPullRequestEmbed(pr)` on index.ts line
213).  The scrape, upload and post calls are modelled as succeeding;
the loop here records what gets posted. -/
structure SkeetPost where
  text : String
  embedOf : Nat
deriving DecidableEq

/-- The display text of the repo link `[owner/repo#number]` added with
`addLink` (index.ts lines 137, 154, 171). -/
def repoTag (owner repo : String) (n : Nat) : String :=
  "[" ++ owner ++ "/" ++ repo ++ "#" ++ toString n ++ "]"

/-- The display text of the author reference: an at-mention when a
Bluesky DID was resolved, else the `resolveSocialHandle` link text
(index.ts lines 141-146 and the identical blocks for the other
states). -/
def authorRefText (author : PullRequestAuthorInfo) (bskyId : Option String) : String :=
  if truthy bskyId then "@" ++ author.bsky.getD "" else resolveSocialHandle author

/-- The text built for an open PR (index.ts lines 133-148). -/
def openText (owner repo : String) (pr : PullRequestInfo)
    (author : PullRequestAuthorInfo) (bskyId : Option String) : String :=
  "💚 \"" ++ pr.title ++ "\"" ++ " " ++ repoTag owner repo pr.number ++ "\n" ++
    "opened by " ++ authorRefText author bskyId ++ " is waiting for review ✨"

/-- The text built for a closed PR (index.ts lines 150-165). -/
def closedText (owner repo : String) (pr : PullRequestInfo)
    (author : PullRequestAuthorInfo) (bskyId : Option String) : String :=
  "❌ \"" ++ pr.title ++ "\"" ++ " " ++ repoTag owner repo pr.number ++ "\n" ++
    "by " ++ authorRefText author bskyId ++ " was closed without merging 😔"

/-- The text built for a merged PR (index.ts lines 167-182). -/
def mergedText (owner repo : String) (pr : PullRequestInfo)
    (author : PullRequestAuthorInfo) (bskyId : Option String) : String :=
  "🎉 \"" ++ pr.title ++ "\"" ++ " " ++ repoTag owner repo pr.number ++ "\n" ++
    "by " ++ authorRefText author bskyId ++ " was merged! Hooray! 🥰"

/-- The publish loop of `update()` (index.ts lines 120-230).  The
builder variable `b` is declared OUTSIDE the `for` loop (line 122), so
its value carries over between iterations: the `draft` switch case
leaves `b` untouched, exactly as the source does.  Each iteration
first reads `pr.author.bsky` (a TypeError when `author` is undefined),
resolves the handle to a DID when the handle is truthy (a failing
resolution propagates), runs the switch, and then, when `b` is
defined, builds the text and -- in production mode -- posts it with an
embed scraped from the CURRENT iteration PR. -/
def postPRs (owner repo : String) (production : Bool)
    (resolveHandle : String → Except JsError String) :
    List PullRequestInfo → Option String → List SkeetPost →
    Except JsError (List SkeetPost)
  | [], _, acc => .ok acc
  | pr :: rest, b, acc =>
    match pr.author with
    | none => .error (.typeError "Cannot read properties of undefined (reading bsky)")
    | some author =>
      match (if truthy author.bsky then
               match resolveHandle (author.bsky.getD "") with
               | .error e => .error e
               | .ok did => .ok (some did)
             else .ok none : Except JsError (Option String)) with
      | .error e => .error e
      | .ok bskyId =>
        let b2 : Option String :=
          match pr.state with
          | .open => some (openText owner repo pr author bskyId)
          | .closed => some (closedText owner repo pr author bskyId)
          | .merged => some (mergedText owner repo pr author bskyId)
          | .draft => b
        match b2 with
        | none => postPRs owner repo production resolveHandle rest b2 acc
        | some text =>
          postPRs owner repo production resolveHandle rest b2
            (if production then acc ++ [{ text := text, embedOf := pr.number }] else acc)

/-- The engine state the mutex of `update()` guards (index.ts line 80):
the boolean flag plus a count of how many fetch-and-publish sequences
have been started, for stating exclusivity. -/
structure EngineState where
  mutex : Bool
  executions : Nat
deriving DecidableEq

/-- How one invocation of `update()` ends: the fetch threw (index.ts
lines 99-103), the publish loop threw (lines 233-236), or the cycle
completed (line 238). -/
inductive SyncOutcome where
  | fetchFailed
  | publishFailed
  | completed
deriving DecidableEq

/-- The entry of `update()` (index.ts lines 84-89): test the mutex and
either return at once (second component `false`: no work performed) or
set the mutex and start a fetch-and-publish sequence.  The test and the
assignment contain no `await`, so on the single-threaded event loop
they form one atomic block. -/
def updateEnter (s : EngineState) : EngineState × Bool :=
  if s.mutex then (s, false)
  else ({ mutex := true, executions := s.executions + 1 }, true)

/-- The exit of an entered `update()` invocation: every path clears the
mutex before returning -- `mutex = false` on the fetch-failure return
(line 101), in the publish catch block (line 235) and at the end of the
function (line 238). -/
def updateExit : SyncOutcome → EngineState → EngineState
  | .fetchFailed, s => { s with mutex := false }
  | .publishFailed, s => { s with mutex := false }
  | .completed, s => { s with mutex := false }

/-- The `_isInitialized` flag of the abstract `Service` base class
(service.ts). -/
structure Service where
  isInitialized : Bool
deriving DecidableEq

/-- `Service.init` (service.ts lines 5-13).  `onInitRes` is the
outcome of the abstract `onInit()` effect, a parameter of the model.
Returns the instance state after the call, whether `onInit` was
invoked, and the error thrown by the call if any.  When the flag is
already set the method returns at once; when `onInit` throws, the
throw propagates before the flag assignment, leaving the instance
unchanged. -/
def Service.init (s : Service) (onInitRes : Except JsError Unit) :
    Service × Bool × Option JsError :=
  if s.isInitialized then (s, false, none)
  else
    match onInitRes with
    | .error e => (s, true, some e)
    | .ok _ => ({ isInitialized := true }, true, none)

/-- A sequence of `init()` calls on one instance, with the outcome each
outcome each call would hand to `onInit` if invoked; returns the final state and how
many times `onInit` actually ran. -/
def Service.initSeq (s : Service) : List (Except JsError Unit) → Service × Nat
  | [] => (s, 0)
  | r :: rs =>
    let step := s.init r
    let rest := step.1.initSeq rs
    (rest.1, (if step.2.1 then 1 else 0) + rest.2)

/-- Once the flag is set, any sequence of further `init()` calls leaves
the instance unchanged and never invokes `onInit`. -/
theorem initSeq_of_initialized (rs : List (Except JsError Unit)) :
    ∀ s : Service, s.isInitialized = true → s.initSeq rs = (s, 0) := by
  induction rs with
  | nil => intro s _; rfl
  | cons r rs ih =>
    intro s h
    simp [Service.initSeq, Service.init, h, ih s h]

/-- Claim C10: `init()` is idempotent: after one successful call to
`init()`, any subsequent call returns without invoking `onInit()` again
and leaves the service state unchanged, so `onInit()` runs at most once
more over any further sequence of calls -- namely zero times. -/
theorem init_idempotent (s : Service) (r : Except JsError Unit)
    (h : (s.init r).2.2 = none) :
    (∀ r2, (s.init r).1.init r2 = ((s.init r).1, false, none)) ∧
    (∀ rs, (s.init r).1.initSeq rs = ((s.init r).1, 0)) := by
  have hinit : (s.init r).1.isInitialized = true := by
    cases hs : s.isInitialized with
    | true => simp [Service.init, hs]
    | false =>
      cases r with
      | error e => simp [Service.init, hs] at h
      | ok u => simp [Service.init, hs]
  constructor
  · intro r2
    generalize hq : (s.init r).1 = s1 at hinit ⊢
    simp [Service.init, hinit]
  · intro rs
    exact initSeq_of_initialized rs _ hinit

/-- Witness for C10 on a fresh instance whose first `onInit` succeeds
and which is then initialised twice more. -/
theorem init_idempotent_witness :
    (((⟨false⟩ : Service).init (.ok ())).1.init (.ok ()) =
      ((((⟨false⟩ : Service)).init (.ok ())).1, false, none)) ∧
    ((((⟨false⟩ : Service)).init (.ok ())).1.initSeq [.ok (), .error .nonTermination] =
      ((((⟨false⟩ : Service)).init (.ok ())).1, 0)) :=
  ⟨(init_idempotent ⟨false⟩ (.ok ()) (by decide)).1 (.ok ()),
   (init_idempotent ⟨false⟩ (.ok ()) (by decide)).2 [.ok (), .error .nonTermination]⟩

/-- Claim C7: starting from an idle engine, the first tick enters and
starts exactly one fetch-and-publish execution, a second tick arriving
before the first completes performs no work, and every completion path
of an entered invocation (normal, fetch failure, publish failure)
clears the mutex. -/
theorem mutex_exclusivity (s : EngineState) (o : SyncOutcome) (h : s.mutex = false) :
    (updateEnter s).2 = true ∧
    (updateEnter (updateEnter s).1).2 = false ∧
    ((updateEnter (updateEnter s).1).1).executions = s.executions + 1 ∧
    (updateExit o (updateEnter (updateEnter s).1).1).mutex = false ∧
    (∀ (o2 : SyncOutcome) (s2 : EngineState), (updateExit o2 s2).mutex = false) := by
  refine ⟨?_, ?_, ?_, ?_, ?_⟩
  · simp [updateEnter, h]
  · simp [updateEnter, h]
  · simp [updateEnter, h]
  · cases o <;> simp [updateEnter, updateExit, h]
  · intro o2 s2
    cases o2 <;> simp [updateExit]

/-- Witness for C7 from the initial engine state with a completing
first cycle. -/
theorem mutex_exclusivity_witness :
    (updateEnter ⟨false, 0⟩).2 = true ∧
    (updateEnter (updateEnter ⟨false, 0⟩).1).2 = false ∧
    ((updateEnter (updateEnter ⟨false, 0⟩).1).1).executions = (0 : Nat) + 1 ∧
    (updateExit .completed (updateEnter (updateEnter ⟨false, 0⟩).1).1).mutex = false ∧
    (∀ (o2 : SyncOutcome) (s2 : EngineState), (updateExit o2 s2).mutex = false) :=
  mutex_exclusivity ⟨false, 0⟩ .completed (by decide)

/-- Inversion of a successful `getPullRequests` call: it walked the
feed into accumulated raw pulls, processed them, filtered by ignore
list, filtered by the pre-call watermark, and wrote `now` into the
watermark -- the only state change. -/
theorem getPullRequests_ok_inv (svc : GithubService) (api : GithubApi)
    (fuel : Nat) (startFrom : Option Nat) (now : Nat)
    (b : List PullRequestInfo) (svc2 : GithubService)
    (h : svc.getPullRequests api fuel startFrom now = .ok (b, svc2)) :
    ∃ raws pulls pulls2,
      walkPages api (startFrom.getD svc.lastUpdateOn) svc.lastUpdateOn fuel 0 none
        = .ok (some raws) ∧
      processAll api [] raws = .ok pulls ∧
      filterIgnored svc.ignoreUsers pulls = .ok pulls2 ∧
      b = pulls2.filter (fun pr => decide (svc.lastUpdateOn ≤ pr.updatedAt)) ∧
      svc2 = { svc with lastUpdateOn := now } := by
  simp only [GithubService.getPullRequests] at h
  split at h
  · simp at h
  · simp at h
  next raws hw =>
    split at h
    · simp at h
    next pulls hp =>
      split at h
      · simp at h
      next pulls2 hf =>
        simp only [Except.ok.injEq, Prod.mk.injEq] at h
        exact ⟨raws, pulls, pulls2, hw, hp, hf, h.1.symm, h.2.symm⟩

/-- Every pull request surviving the ignore filter has a defined
author whose username is not in the ignore list (a PR with an
undefined author would instead have made the whole filter throw). -/
theorem filterIgnored_mem (ignore : List String) :
    ∀ (l l2 : List PullRequestInfo), filterIgnored ignore l = .ok l2 →
    ∀ pr ∈ l2, ∃ a, pr.author = some a ∧ a.username ∉ ignore := by
  intro l
  induction l with
  | nil =>
    intro l2 h pr hm
    simp only [filterIgnored, Except.ok.injEq] at h
    subst h
    simp at hm
  | cons pr0 rest ih =>
    intro l2 h pr hm
    simp only [filterIgnored] at h
    cases ha : pr0.author with
    | none => rw [ha] at h; simp at h
    | some a =>
      rw [ha] at h
      cases hf : filterIgnored ignore rest with
      | error e => rw [hf] at h; simp at h
      | ok tail =>
        rw [hf] at h
        simp only [Except.ok.injEq] at h
        subst h
        by_cases hmem : a.username ∈ ignore
        · simp only [hmem, decide_True, if_true] at hm
          exact ih tail hf pr hm
        · simp [hmem] at hm
          rcases hm with hpr | hpr
          · exact hpr ▸ ⟨a, ha, hmem⟩
          · exact ih tail hf pr hpr

/-- The ignore filter only removes elements: its output is a sublist
of its input. -/
theorem filterIgnored_sublist (ignore : List String) :
    ∀ (l l2 : List PullRequestInfo), filterIgnored ignore l = .ok l2 → l2.Sublist l := by
  intro l
  induction l with
  | nil =>
    intro l2 h
    simp only [filterIgnored, Except.ok.injEq] at h
    subst h
    simp
  | cons pr0 rest ih =>
    intro l2 h
    simp only [filterIgnored] at h
    cases ha : pr0.author with
    | none => rw [ha] at h; simp at h
    | some a =>
      rw [ha] at h
      cases hf : filterIgnored ignore rest with
      | error e => rw [hf] at h; simp at h
      | ok tail =>
        rw [hf] at h
        simp only [Except.ok.injEq] at h
        subst h
        by_cases hmem : a.username ∈ ignore
        · simp only [hmem, decide_True, if_true]
          exact (ih tail hf).cons pr0
        · simp only [hmem, decide_False, if_false]
          exact (ih tail hf).cons₂ pr0

/-- Shape of one successfully processed raw pull: the state switch
succeeded and the built record carries the raw number and the selected
state and lifecycle timestamp. -/
theorem processRaw_ok_shape (api : GithubApi)
    (users : List (String × PullRequestAuthorInfo)) (raw : RawPull)
    (pri : PullRequestInfo) (users2 : List (String × PullRequestAuthorInfo))
    (h : processRaw api users raw = .ok (pri, users2)) :
    ∃ sd, stateAndDate raw = .ok sd ∧
      pri.number = raw.number ∧ pri.updatedAt = sd.2 ∧ pri.state = sd.1 := by
  simp only [processRaw] at h
  split at h
  · simp at h
  next sd hsd =>
    refine ⟨sd, hsd, ?_⟩
    split at h
    · simp only [Except.ok.injEq, Prod.mk.injEq] at h
      obtain ⟨h1, -⟩ := h
      subst h1
      exact ⟨rfl, rfl, rfl⟩
    next login hu =>
      split at h
      next info hc =>
        simp only [Except.ok.injEq, Prod.mk.injEq] at h
        obtain ⟨h1, -⟩ := h
        subst h1
        exact ⟨rfl, rfl, rfl⟩
      next hc =>
        split at h
        · simp at h
        next u hg =>
          split at h
          · simp at h
          next info hi =>
            simp only [Except.ok.injEq, Prod.mk.injEq] at h
            obtain ⟨h1, -⟩ := h
            subst h1
            exact ⟨rfl, rfl, rfl⟩

/-- Processing preserves, in order, the PR numbers of the accumulated
raw pulls: no deduplication happens in the processing step. -/
theorem processAll_numbers (api : GithubApi) :
    ∀ (raws : List RawPull) (users : List (String × PullRequestAuthorInfo))
      (l : List PullRequestInfo),
    processAll api users raws = .ok l →
    l.map PullRequestInfo.number = raws.map RawPull.number := by
  intro raws
  induction raws with
  | nil =>
    intro users l h
    simp only [processAll, Except.ok.injEq] at h
    subst h
    rfl
  | cons raw rest ih =>
    intro users l h
    simp only [processAll] at h
    split at h
    · simp at h
    next pri users2 hr =>
      split at h
      · simp at h
      next tail hrest =>
        simp only [Except.ok.injEq] at h
        subst h
        obtain ⟨sd, -, hnum, -, -⟩ := processRaw_ok_shape api users raw pri users2 hr
        simp [hnum, ih users2 tail hrest]

/-- Claim C1: every sync call of `getPullRequests` that returns a batch
returns only PRs whose lifecycle timestamp is at least the watermark in
effect before the call, and only PRs whose (defined) author username is
not in the configured ignore list. -/
theorem batch_respects_watermark_and_ignore (svc : GithubService) (api : GithubApi)
    (fuel : Nat) (startFrom : Option Nat) (now : Nat)
    (b : List PullRequestInfo) (svc2 : GithubService)
    (h : svc.getPullRequests api fuel startFrom now = .ok (b, svc2)) :
    ∀ pr ∈ b, svc.lastUpdateOn ≤ pr.updatedAt ∧
      ∃ a, pr.author = some a ∧ a.username ∉ svc.ignoreUsers := by
  intro pr hm
  obtain ⟨raws, pulls, pulls2, -, -, hf, hb, -⟩ :=
    getPullRequests_ok_inv svc api fuel startFrom now b svc2 h
  subst hb
  rw [List.mem_filter] at hm
  exact ⟨by simpa using hm.2, filterIgnored_mem svc.ignoreUsers pulls pulls2 hf pr hm.1⟩

/-- Claim C2: one engine-level call step never moves the watermark
backwards, given only that the wall clock read at the end of the call
is not earlier than the current watermark (the watermark was itself
taken from an earlier clock reading).  A failing call leaves the
watermark untouched; a successful call writes the clock value. -/
theorem watermark_monotone (svc : GithubService) (api : GithubApi) (fuel : Nat)
    (startFrom : Option Nat) (now : Nat) (h : svc.lastUpdateOn ≤ now) :
    svc.lastUpdateOn ≤ (fetchStep api fuel svc startFrom now).1.lastUpdateOn := by
  unfold fetchStep
  cases hg : svc.getPullRequests api fuel startFrom now with
  | error e => exact Nat.le_refl _
  | ok p =>
    obtain ⟨b, svc2⟩ := p
    obtain ⟨-, -, -, -, -, -, -, hstate⟩ :=
      getPullRequests_ok_inv svc api fuel startFrom now b svc2 hg
    show svc.lastUpdateOn ≤ svc2.lastUpdateOn
    rw [hstate]
    exact h

/-- Claim C3: a thrown error inside `getPullRequests` -- any page
request or author lookup failing -- yields no partial batch and leaves
the watermark exactly equal to its pre-call value (first conjunct); in
particular an error from the very first page request propagates
unchanged out of the call (second conjunct). -/
theorem fetch_failure_preserves_watermark (api : GithubApi) (fuel : Nat)
    (svc : GithubService) (startFrom : Option Nat) (now : Nat) :
    (∀ e, svc.getPullRequests api fuel startFrom now = .error e →
      fetchStep api fuel svc startFrom now = (svc, .error e)) ∧
    (∀ e, api.listPulls (startFrom.getD svc.lastUpdateOn) 0 = .error e →
      svc.getPullRequests api (fuel + 1) startFrom now = .error e) := by
  constructor
  · intro e he
    simp [fetchStep, he]
  · intro e he
    simp [GithubService.getPullRequests, walkPages, he]

/-- Claim C4 (amended): the batch contains each PR number at most as
often as the accumulated pages of the walk contain it -- filtering only
removes occurrences, and no deduplication step exists to collapse a PR
served on more than one page. -/
theorem batch_multiplicity_bounded (svc : GithubService) (api : GithubApi)
    (fuel : Nat) (startFrom : Option Nat) (now : Nat)
    (raws : List RawPull) (b : List PullRequestInfo) (svc2 : GithubService)
    (hw : walkPages api (startFrom.getD svc.lastUpdateOn) svc.lastUpdateOn fuel 0 none
      = .ok (some raws))
    (h : svc.getPullRequests api fuel startFrom now = .ok (b, svc2)) (n : Nat) :
    (b.map PullRequestInfo.number).count n ≤ (raws.map RawPull.number).count n := by
  obtain ⟨raws2, pulls, pulls2, hw2, hp, hf, hb, -⟩ :=
    getPullRequests_ok_inv svc api fuel startFrom now b svc2 h
  rw [hw] at hw2
  simp only [Except.ok.injEq, Option.some.injEq] at hw2
  subst hw2
  have h1 : b.Sublist pulls := by
    rw [hb]
    exact (List.filter_sublist pulls2).trans
      (filterIgnored_sublist svc.ignoreUsers pulls pulls2 hf)
  have h2 := (h1.map PullRequestInfo.number).count_le n
  rwa [processAll_numbers api raws [] pulls hp] at h2

/-- Claim C5: when the hosting API returns an empty first page, the
accumulator variable is still `undefined` when the walk stops, so the
source dereferences `undefined` with `.map`: the call throws a
TypeError instead of returning an empty batch, and the engine-side step
leaves the watermark unchanged instead of advancing it. -/
theorem empty_first_page_type_error (api : GithubApi) (fuel : Nat)
    (svc : GithubService) (startFrom : Option Nat) (now : Nat)
    (h : api.listPulls (startFrom.getD svc.lastUpdateOn) 0 = .ok []) :
    svc.getPullRequests api (fuel + 1) startFrom now =
      .error (.typeError "Cannot read properties of undefined (reading map)") ∧
    fetchStep api (fuel + 1) svc startFrom now =
      (svc, .error (.typeError "Cannot read properties of undefined (reading map)")) := by
  have h1 : svc.getPullRequests api (fuel + 1) startFrom now =
      .error (.typeError "Cannot read properties of undefined (reading map)") := by
    simp [GithubService.getPullRequests, walkPages, h]
  exact ⟨h1, by simp [fetchStep, h1]⟩

/-- Evaluation of the state switch for a closed PR. -/
theorem stateAndDate_closed (raw : RawPull) (hs : raw.state = "closed") :
    stateAndDate raw = .ok (.closed, jsDateOfNullable raw.closed_at) := by
  simp [stateAndDate, hs]

/-- Evaluation of the state switch for a merged PR. -/
theorem stateAndDate_merged (raw : RawPull) (hs : raw.state = "merged") :
    stateAndDate raw = .ok (.merged, jsDateOfNullable raw.merged_at) := by
  simp [stateAndDate, hs]

/-- Claim C8 (amended): a raw PR reported closed without a close
timestamp (or merged without a merge timestamp) raises no error at all:
`new Date(null)` silently coerces the missing value to the Unix epoch,
so the processed record carries lifecycle timestamp `0`.  Only an
unrecognised state string raises an explicit error. -/
theorem missing_timestamp_coerced_to_epoch (api : GithubApi)
    (users : List (String × PullRequestAuthorInfo)) (raw : RawPull)
    (pri : PullRequestInfo) (users2 : List (String × PullRequestAuthorInfo))
    (hcase : (raw.state = "closed" ∧ raw.closed_at = none) ∨
      (raw.state = "merged" ∧ raw.merged_at = none))
    (h : processRaw api users raw = .ok (pri, users2)) :
    pri.updatedAt = 0 ∧ (pri.state = .closed ∨ pri.state = .merged) := by
  obtain ⟨sd, hsd, -, hupd, hstate⟩ := processRaw_ok_shape api users raw pri users2 h
  rcases hcase with ⟨hs, hn⟩ | ⟨hs, hn⟩
  · rw [stateAndDate_closed raw hs, hn] at hsd
    simp only [Except.ok.injEq] at hsd
    subst hsd
    exact ⟨by simp [hupd, jsDateOfNullable], Or.inl (by rw [hstate])⟩
  · rw [stateAndDate_merged raw hs, hn] at hsd
    simp only [Except.ok.injEq] at hsd
    subst hsd
    exact ⟨by simp [hupd, jsDateOfNullable], Or.inr (by rw [hstate])⟩

/-- A raw open PR by user alice, last updated after the watermarks of
the example services below. -/
def exRaw1 : RawPull :=
  { number := 3, title := "T", html_url := "https://github.com/o/r/pull/3",
    updated_at := 50, state := "open", created_at := 50, user := some "alice" }

/-- A one-page feed serving `exRaw1`, with alice resolvable and having
no linked social accounts. -/
def exApi1 : GithubApi :=
  { listPulls := fun _ p => if p = 0 then .ok [exRaw1] else .ok [],
    getUser := fun l => if l = "alice"
      then .ok { login := "alice", html_url := "https://github.com/alice" }
      else .error (.fetchError "404"),
    listSocial := fun _ => .ok [] }

/-- The resolved author record for alice without social accounts. -/
def exAuthor1 : PullRequestAuthorInfo :=
  { username := "alice", url := "https://github.com/alice" }

/-- The processed form of `exRaw1`. -/
def exPri1 : PullRequestInfo :=
  { number := 3, title := "T", url := "https://github.com/o/r/pull/3",
    updatedAt := 50, state := .open, author := some exAuthor1 }

/-- A service with a non-trivial watermark and ignore list. -/
def exSvc1 : GithubService := { lastUpdateOn := 10, ignoreUsers := ["bot"] }

/-- Witness for C1 on a concrete successful call returning one PR. -/
theorem batch_respects_watermark_and_ignore_witness :
    exSvc1.lastUpdateOn ≤ exPri1.updatedAt ∧
    ∃ a, exPri1.author = some a ∧ a.username ∉ exSvc1.ignoreUsers :=
  batch_respects_watermark_and_ignore exSvc1 exApi1 3 none 99 [exPri1]
    { lastUpdateOn := 99, ignoreUsers := ["bot"] } (by decide) exPri1 (by decide)

/-- Witness for C2 on a concrete successful call advancing the
watermark from 10 to 99. -/
theorem watermark_monotone_witness :
    exSvc1.lastUpdateOn ≤ (fetchStep exApi1 3 exSvc1 none 99).1.lastUpdateOn :=
  watermark_monotone exSvc1 exApi1 3 none 99 (by decide)

/-- An API whose every request fails. -/
def exApi3 : GithubApi :=
  { listPulls := fun _ _ => .error (.fetchError "rate limited"),
    getUser := fun _ => .error (.fetchError "rate limited"),
    listSocial := fun _ => .error (.fetchError "rate limited") }

/-- A service used with the failing API. -/
def exSvc3 : GithubService := { lastUpdateOn := 7, ignoreUsers := [] }

/-- Witness for C3: a failing first page request propagates and the
engine step keeps the exact watermark and produces no batch. -/
theorem fetch_failure_preserves_watermark_witness :
    fetchStep exApi3 1 exSvc3 none 9 = (exSvc3, .error (.fetchError "rate limited")) :=
  (fetch_failure_preserves_watermark exApi3 1 exSvc3 none 9).1 (.fetchError "rate limited")
    ((fetch_failure_preserves_watermark exApi3 0 exSvc3 none 9).2
      (.fetchError "rate limited") (by decide))

/-- A raw PR that the feed below serves on two consecutive pages. -/
def exRaw4 : RawPull :=
  { number := 1, title := "A", html_url := "https://github.com/o/r/pull/1",
    updated_at := 50, state := "open", created_at := 50, user := some "alice" }

/-- A feed serving the same PR on page 0 and page 1 (as a feed
shifting under the walker, or the 0-based page counter hitting the
1-based pagination of the hosting API, will do), then an empty page. -/
def exApi4 : GithubApi :=
  { listPulls := fun _ p =>
      if p = 0 then .ok [exRaw4] else if p = 1 then .ok [exRaw4] else .ok [],
    getUser := fun l => if l = "alice"
      then .ok { login := "alice", html_url := "https://github.com/alice" }
      else .error (.fetchError "404"),
    listSocial := fun _ => .ok [] }

/-- A fresh service: watermark at the epoch, no ignores. -/
def exSvc4 : GithubService := { lastUpdateOn := 0, ignoreUsers := [] }

/-- The processed form of `exRaw4`. -/
def exPri4 : PullRequestInfo :=
  { number := 1, title := "A", url := "https://github.com/o/r/pull/1",
    updatedAt := 50, state := .open, author := some exAuthor1 }

/-- Counterexample to C4 as stated: on the feed `exApi4` the
successful batch contains PR number 1 twice -- no deduplication is
performed on the accumulated pages. -/
theorem batch_duplicate_counterexample :
    Except.map (fun r => (r.1.map PullRequestInfo.number).count 1)
      (exSvc4.getPullRequests exApi4 5 none 100) = .ok 2 := by decide

/-- Witness for the amended C4 on the duplicate-serving feed: the
multiplicity in the batch (two) is bounded by the multiplicity in the
walked pages (two). -/
theorem batch_multiplicity_bounded_witness :
    (([exPri4, exPri4].map PullRequestInfo.number).count 1) ≤
      (([exRaw4, exRaw4].map RawPull.number).count 1) :=
  batch_multiplicity_bounded exSvc4 exApi4 5 none 100 [exRaw4, exRaw4] [exPri4, exPri4]
    { lastUpdateOn := 100, ignoreUsers := [] } (by decide) (by decide) 1

/-- A feed with no pull requests at all: the first page is empty. -/
def exApi5 : GithubApi :=
  { listPulls := fun _ _ => .ok [],
    getUser := fun _ => .error (.fetchError "unused"),
    listSocial := fun _ => .ok [] }

/-- A service used with the empty feed. -/
def exSvc5 : GithubService := { lastUpdateOn := 7, ignoreUsers := [] }

/-- Witness for C5: on the empty feed the call throws the TypeError
and the watermark stays 7 instead of advancing to 9. -/
theorem empty_first_page_type_error_witness :
    exSvc5.getPullRequests exApi5 1 none 9 =
      .error (.typeError "Cannot read properties of undefined (reading map)") ∧
    fetchStep exApi5 1 exSvc5 none 9 =
      (exSvc5, .error (.typeError "Cannot read properties of undefined (reading map)")) :=
  empty_first_page_type_error exApi5 0 exSvc5 none 9 (by decide)

/-- A merged PR by alice (no linked Bluesky handle). -/
def exPrMerged : PullRequestInfo :=
  { number := 1, title := "A", url := "https://github.com/o/r/pull/1",
    updatedAt := 60, state := .merged, author := some exAuthor1 }

/-- A draft PR by alice following the merged one in the batch. -/
def exPrDraft : PullRequestInfo :=
  { number := 2, title := "B", url := "https://github.com/o/r/pull/2",
    updatedAt := 61, state := .draft, author := some exAuthor1 }

/-- Handle resolution is never reached for authors without a Bluesky
handle; the example resolver fails if called. -/
def exResolveHandle : String → Except JsError String :=
  fun _ => .error (.fetchError "unused")

/-- Claim C6: processing the batch [merged #1, draft #2] in production
mode produces TWO posts, not one: at the draft iteration the builder
value left over from PR #1 is rebuilt and posted again, with the
link-preview embed scraped from the draft PR (number 2).  The draft
case is not an explicit suppression: it merely skips reassigning the
loop-external builder variable. -/
theorem draft_reemits_previous_message :
    postPRs "o" "r" true exResolveHandle [exPrMerged, exPrDraft] none [] =
      .ok [{ text := mergedText "o" "r" exPrMerged exAuthor1 none, embedOf := 1 },
           { text := mergedText "o" "r" exPrMerged exAuthor1 none, embedOf := 2 }] := by
  decide

/-- A raw PR reported closed with no close timestamp. -/
def exRaw8 : RawPull :=
  { number := 7, title := "B", html_url := "https://github.com/o/r/pull/7",
    updated_at := 50, state := "closed", created_at := 40, closed_at := none,
    user := some "alice" }

/-- A one-page feed serving the malformed closed PR. -/
def exApi8 : GithubApi :=
  { listPulls := fun _ p => if p = 0 then .ok [exRaw8] else .ok [],
    getUser := fun l => if l = "alice"
      then .ok { login := "alice", html_url := "https://github.com/alice" }
      else .error (.fetchError "404"),
    listSocial := fun _ => .ok [] }

/-- A fresh service receiving the malformed feed. -/
def exSvc8 : GithubService := { lastUpdateOn := 0, ignoreUsers := [] }

/-- Counterexample to C8 as stated: on a feed containing a closed PR
with an absent close timestamp, `getPullRequests` raises no
malformed-input error; the call succeeds and the PR flows into the
batch carrying the silently substituted epoch timestamp 0. -/
theorem closed_missing_timestamp_no_error :
    Except.map (fun r => r.1.map (fun pr => (pr.number, pr.updatedAt)))
      (exSvc8.getPullRequests exApi8 3 none 99) = .ok [(7, 0)] := by
  decide

/-- The processed form of `exRaw8`: state closed, timestamp epoch. -/
def exPri8 : PullRequestInfo :=
  { number := 7, title := "B", url := "https://github.com/o/r/pull/7",
    updatedAt := 0, state := .closed, author := some exAuthor1 }

/-- Witness for the amended C8 at the malformed closed PR. -/
theorem missing_timestamp_coerced_to_epoch_witness :
    exPri8.updatedAt = 0 ∧ (exPri8.state = .closed ∨ exPri8.state = .merged) :=
  missing_timestamp_coerced_to_epoch exApi8 [] exRaw8 exPri8 [("alice", exAuthor1)]
    (Or.inl (by decide)) (by decide)

/-- A user whose only linked social account is a federated-network URL
with an empty trailing handle. -/
def exUser9 : GithubUser := { login := "alice", html_url := "https://github.com/alice" }

/-- The API serving that single malformed Mastodon account URL. -/
def exApi9 : GithubApi :=
  { listPulls := fun _ _ => .ok [],
    getUser := fun _ => .error (.fetchError "unused"),
    listSocial := fun l => if l = "alice"
      then .ok [{ provider := "mastodon", url := "https://mastodon.social/@" }]
      else .error (.fetchError "404") }

/-- Claim C9: author resolution for a federated-network URL with an
empty handle does NOT leave the handle field unset: the source assigns
`author.mastodon` before the empty-handle check throws, so after the
catch block logs the error the returned record carries the bogus
handle `@mastodon.social` built from the empty handle and the
domain. -/
theorem mastodon_empty_handle_sets_bogus_handle :
    githubUserToPullRequestAuthorInfo exApi9 exUser9 =
      .ok { username := "alice", url := "https://github.com/alice",
            mastodon := some "@mastodon.social",
            mastodonUrl := some "https://mastodon.social/@" } := by
  decide
